import Mathlib

/-!
Verification of the AtLAST sensitivity calculator core against its
natural-language specification.

The development shallowly embeds the Python sources:
src/atlast_sc/calculator.py, src/atlast_sc/config.py and the parameter
accessor classes under src/atlast_sc/parameters/.  Physical magnitudes
are idealised as real numbers; astropy quantities become a magnitude
paired with an explicit unit tag.  Modules of the repository that are
not present under src (models.py with the field bounds, utils.py with
the validation decorators, derived_groups.py with the atmosphere,
temperature and efficiency models) are either modelled from the spec
(marked in the doc comments) or taken as parameters of the embedding.
-/

namespace AtlastSC

/-! ## Physical quantities: magnitude plus unit tag

The astropy Quantity values that flow through the calculator are
modelled by a real magnitude paired with an explicit unit.  Only the
units that the calculator code actually produces are represented:
flux density in uJy, mJy or Jy, and time in seconds, minutes or hours.
-/

/-- Flux density units appearing in calculator.py lines 87 to 94. -/
inductive FluxUnit where
  | uJy
  | mJy
  | Jy
deriving DecidableEq

/-- Conversion factor from the given unit to mJy. -/
noncomputable def FluxUnit.mJyFactor : FluxUnit → ℝ
  | .uJy => 1 / 1000
  | .mJy => 1
  | .Jy => 1000

/-- A flux density quantity: magnitude plus unit. -/
structure FluxQ where
  mag : ℝ
  unit : FluxUnit

/-- Magnitude of a flux quantity expressed in mJy, as in `value.to(u.mJy)`. -/
noncomputable def FluxQ.tomJy (q : FluxQ) : ℝ := q.mag * q.unit.mJyFactor

/-- Magnitude of a flux quantity expressed in Jy. -/
noncomputable def FluxQ.toJy (q : FluxQ) : ℝ := q.tomJy / 1000

/-- Unit conversion of a flux quantity, as in astropy `.to`. -/
noncomputable def FluxQ.convertTo (q : FluxQ) (u : FluxUnit) : FluxQ :=
  ⟨q.tomJy / u.mJyFactor, u⟩

/-- Time units appearing in calculator.py lines 139 to 146. -/
inductive TimeUnit where
  | second
  | minute
  | hour
deriving DecidableEq

/-- Conversion factor from the given unit to seconds. -/
noncomputable def TimeUnit.secFactor : TimeUnit → ℝ
  | .second => 1
  | .minute => 60
  | .hour => 3600

/-- A time quantity: magnitude plus unit. -/
structure TimeQ where
  mag : ℝ
  unit : TimeUnit

/-- Magnitude of a time quantity expressed in seconds, as in `value.to(u.s)`. -/
noncomputable def TimeQ.toSec (q : TimeQ) : ℝ := q.mag * q.unit.secFactor

/-- Unit conversion of a time quantity, as in astropy `.to`. -/
noncomputable def TimeQ.convertTo (q : TimeQ) (u : TimeUnit) : TimeQ :=
  ⟨q.toSec / u.secFactor, u⟩

/-! Basic conversion lemmas. -/

theorem FluxUnit.mJyFactor_ne_zero (u : FluxUnit) : u.mJyFactor ≠ 0 := by
  cases u <;> norm_num [FluxUnit.mJyFactor]

theorem TimeUnit.secFactor_ne_zero (u : TimeUnit) : u.secFactor ≠ 0 := by
  cases u <;> norm_num [TimeUnit.secFactor]

theorem FluxQ.tomJy_convertTo (q : FluxQ) (u : FluxUnit) :
    (q.convertTo u).tomJy = q.tomJy := by
  simp [FluxQ.convertTo, FluxQ.tomJy, div_mul_cancel₀ _ (FluxUnit.mJyFactor_ne_zero u)]

theorem TimeQ.toSec_convertTo (q : TimeQ) (u : TimeUnit) :
    (q.convertTo u).toSec = q.toSec := by
  simp [TimeQ.convertTo, TimeQ.toSec, div_mul_cancel₀ _ (TimeUnit.secFactor_ne_zero u)]

/-! ## Output unit tiering

calculator.py lines 87 to 94 convert the computed sensitivity to the
most convenient unit, and lines 139 to 146 do the same for the computed
integration time.  The source uses an elif chain whose final implicit
else leaves the quantity unconverted; the translation mirrors that
chain exactly.
-/

open Classical in
/-- Unit tiering for the computed sensitivity, calculator.py lines 87 to 94. -/
noncomputable def tierFlux (q : FluxQ) : FluxQ :=
  let sensitivityresult := q.tomJy
  if sensitivityresult < 1 then q.convertTo .uJy
  else if 1 ≤ sensitivityresult ∧ sensitivityresult < 1000 then q.convertTo .mJy
  else if 1000 ≤ sensitivityresult then q.convertTo .Jy
  else q

open Classical in
/-- Unit tiering for the computed integration time, calculator.py lines 139 to 146. -/
noncomputable def tierTime (q : TimeQ) : TimeQ :=
  let timeresult := q.toSec
  if timeresult < 60 then q.convertTo .second
  else if 60 ≤ timeresult ∧ timeresult < 3600 then q.convertTo .minute
  else if 3600 ≤ timeresult then q.convertTo .hour
  else q

theorem tierFlux_tomJy (q : FluxQ) : (tierFlux q).tomJy = q.tomJy := by
  simp only [tierFlux]
  split_ifs <;> simp [FluxQ.tomJy_convertTo]

theorem tierTime_toSec (q : TimeQ) : (tierTime q).toSec = q.toSec := by
  simp only [tierTime]
  split_ifs <;> simp [TimeQ.toSec_convertTo]

theorem tierFlux_unit (q : FluxQ) :
    (tierFlux q).unit =
      (if q.tomJy < 1 then FluxUnit.uJy
       else if q.tomJy < 1000 then FluxUnit.mJy else FluxUnit.Jy) := by
  simp only [tierFlux]
  by_cases h1 : q.tomJy < 1
  · simp [h1, FluxQ.convertTo]
  · have h1a : 1 ≤ q.tomJy := not_lt.mp h1
    by_cases h2 : q.tomJy < 1000
    · simp [h1, h1a, h2, FluxQ.convertTo]
    · have h2a : 1000 ≤ q.tomJy := not_lt.mp h2
      simp [h1, h2, h2a, FluxQ.convertTo]

theorem tierTime_unit (q : TimeQ) :
    (tierTime q).unit =
      (if q.toSec < 60 then TimeUnit.second
       else if q.toSec < 3600 then TimeUnit.minute else TimeUnit.hour) := by
  simp only [tierTime]
  by_cases h1 : q.toSec < 60
  · simp [h1, TimeQ.convertTo]
  · have h1a : 60 ≤ q.toSec := not_lt.mp h1
    by_cases h2 : q.toSec < 3600
    · simp [h1, h1a, h2, TimeQ.convertTo]
    · have h2a : 3600 ≤ q.toSec := not_lt.mp h2
      simp [h1, h2, h2a, TimeQ.convertTo]

/-! ## Data model

models.py is not part of the sources provided under src, so the input
records are modelled from the spec (section 3).  Each dual-unit field
keeps its unit inside the quantity; single-unit fields are plain real
magnitudes in a fixed unit (obs_freq in GHz, bandwidth in Hz).
-/

/-- Modelled from the spec: the UserInput record of models.py (absent from
src), with the named physical-quantity fields of spec section 3. -/
structure UserInput where
  obs_freq : ℝ
  bandwidth : ℝ
  n_pol : ℝ
  weather : ℝ
  elevation : ℝ
  t_int : TimeQ
  sensitivity : FluxQ

/-- Modelled from the spec: the InstrumentSetup record of models.py (absent
from src), with the hardware fields of spec section 3. -/
structure InstrumentSetup where
  g : ℝ
  surface_rms : ℝ
  dish_radius : ℝ
  T_amb : ℝ
  eta_eff : ℝ
  eta_ill : ℝ
  eta_spill : ℝ
  eta_block : ℝ
  eta_pol : ℝ

/-- Modelled from the spec: the CalculationInput aggregate of models.py
(absent from src).  T_cmb lives on the aggregate itself, as the getter in
instrument_setup_parameters.py line 92 shows. -/
structure CalculationInput where
  user_input : UserInput
  instrument_setup : InstrumentSetup
  T_cmb : ℝ

/-- The derived-parameter snapshot, models.py DerivedParams as listed in
spec section 3 and populated in calculator.py lines 327 to 330. -/
structure DerivedSnapshot where
  tau_atm : ℝ
  T_atm : ℝ
  T_rx : ℝ
  eta_a : ℝ
  eta_s : ℝ
  T_sys : ℝ
  T_sky : ℝ
  sefd : ℝ

/-! ## Validated Parameter Store (config.py)

Python objects are aliased through references, and config.py manipulates
references: construction deep-copies the inputs into a second object and
reset assigns the snapshot reference to the live slot (config.py lines
48 to 49).  The embedding makes the aliasing explicit with a small heap
of CalculationInput objects addressed by natural-number references.
-/

/-- The state of a Config object: a heap of CalculationInput objects, the
reference held by the live field and the reference held by the snapshot
field taken at construction. -/
structure ConfigSt where
  heap : Nat → CalculationInput
  live : Nat
  orig : Nat

/-- Config construction, config.py lines 25 to 33: the live inputs are one
object (reference 0) and the deep copy bound to the snapshot field is a
distinct object with an equal value (reference 1). -/
def Config.construct (ci : CalculationInput) : ConfigSt :=
  { heap := fun _ => ci, live := 0, orig := 1 }

/-- The calculation_inputs property, config.py lines 35 to 40: dereference
the live reference. -/
def ConfigSt.inputs (c : ConfigSt) : CalculationInput := c.heap c.live

/-- The value currently held by the construction-time snapshot object. -/
def ConfigSt.originals (c : ConfigSt) : CalculationInput := c.heap c.orig

/-- Config.reset, config.py lines 42 to 49: the source executes a plain
reference assignment of the snapshot to the live field, so afterwards both
fields alias one object. -/
def ConfigSt.reset (c : ConfigSt) : ConfigSt :=
  { c with live := c.orig }

/-- Mutation of the object referenced by the live field, as performed by
every parameter setter body writing through self.config. -/
def ConfigSt.writeLive (c : ConfigSt) (f : CalculationInput → CalculationInput) :
    ConfigSt :=
  { c with heap := Function.update c.heap c.live (f (c.heap c.live)) }

/-- The t_int setter body, user_input_parameters.py lines 42 to 43: write
the new quantity into the live inputs object. -/
def ConfigSt.writeTint (c : ConfigSt) (v : TimeQ) : ConfigSt :=
  c.writeLive fun ci => { ci with user_input := { ci.user_input with t_int := v } }

/-- The obs_freq setter body, user_input_parameters.py lines 88 to 89. -/
def ConfigSt.writeObsFreq (c : ConfigSt) (v : ℝ) : ConfigSt :=
  c.writeLive fun ci => { ci with user_input := { ci.user_input with obs_freq := v } }

/-! ## Validation bounds

models.py with the declared per-field bounds and utils.py with
DataHelper.validate and the validation decorators are absent from src,
so validation is modelled from the spec (sections 4.1 and 7): every
field carries declared physical bounds and a value outside them is
rejected with a ValueOutOfRangeException. -/

/-- Python exceptions raised by the embedded code paths. -/
inductive PyErr where
  | valueOutOfRange
  | attributeError
deriving DecidableEq

/-- The warning category of exceptions.py used by calculator.py. -/
inductive CalcWarning where
  | calculatedValueInvalid
deriving DecidableEq

/-- Modelled from the spec: the declared bounds of the validated fields
exercised by the claims (t_int in seconds, sensitivity in mJy, obs_freq
in GHz), inclusive at both ends. -/
structure Bounds where
  tIntMin : ℝ
  tIntMax : ℝ
  sensMin : ℝ
  sensMax : ℝ
  obsFreqMin : ℝ
  obsFreqMax : ℝ

/-- Modelled from the spec: the range check applied to a t_int value. -/
def validTint (B : Bounds) (t : TimeQ) : Prop :=
  B.tIntMin ≤ t.toSec ∧ t.toSec ≤ B.tIntMax

/-- Modelled from the spec: the range check applied to a sensitivity value. -/
def validSens (B : Bounds) (s : FluxQ) : Prop :=
  B.sensMin ≤ s.tomJy ∧ s.tomJy ≤ B.sensMax

/-- Modelled from the spec: the range check applied to an obs_freq value. -/
def validObsFreq (B : Bounds) (v : ℝ) : Prop :=
  B.obsFreqMin ≤ v ∧ v ≤ B.obsFreqMax

open Classical in
/-- Modelled from the spec: DataHelper.validate of utils.py (absent from
src) for the t_int parameter, raising on an out-of-range value. -/
noncomputable def dataHelperValidateTint (B : Bounds) (t : TimeQ) :
    Except PyErr Unit :=
  if validTint B t then .ok () else .error .valueOutOfRange

open Classical in
/-- Modelled from the spec: DataHelper.validate of utils.py (absent from
src) for the sensitivity parameter. -/
noncomputable def dataHelperValidateSens (B : Bounds) (s : FluxQ) :
    Except PyErr Unit :=
  if validSens B s then .ok () else .error .valueOutOfRange

/-! ## Calculator state (calculator.py)

The Calculator object owns the Config, the derived-parameter snapshot
wrapper self._dp, and two plain instance attributes: self.sensitivity,
created in the constructor at line 49, and self.t_int, which only comes
into existence when calculate_t_integration line 151 first assigns it.
Neither attribute is a property: assigning them never validates and
never touches the Parameter Store. -/

/-- The mutable state of a Calculator instance. -/
structure CalcSt where
  config : ConfigSt
  dp : DerivedSnapshot
  sensitivityAttr : FluxQ
  tIntAttr : Option TimeQ

/-- The stored t_int read through self._uip.t_int (user_input_parameters.py
line 24). -/
def CalcSt.uipTint (st : CalcSt) : TimeQ := st.config.inputs.user_input.t_int

/-- The stored sensitivity read through self._uip.sensitivity
(user_input_parameters.py line 50). -/
def CalcSt.uipSens (st : CalcSt) : FluxQ := st.config.inputs.user_input.sensitivity

/-- The stored n_pol read through self._uip.n_pol. -/
def CalcSt.nPol (st : CalcSt) : ℝ := st.config.inputs.user_input.n_pol

/-- The stored bandwidth read through self._uip.bandwidth, in Hz. -/
def CalcSt.bandwidth (st : CalcSt) : ℝ := st.config.inputs.user_input.bandwidth

open Classical in
/-- The t_int property setter of user_input_parameters.py lines 26 to 43:
the validate_value decorator (modelled from the spec, utils.py being
absent from src) range-checks the value and raises on failure, then the
body commits the value into the live inputs object.  t_int does not feed
the derived computation, so no recomputation is triggered. -/
noncomputable def uipSetTint (B : Bounds) (st : CalcSt) (v : TimeQ) :
    Except PyErr CalcSt :=
  if validTint B v then .ok { st with config := st.config.writeTint v }
  else .error .valueOutOfRange

open Classical in
/-- The obs_freq property setter of user_input_parameters.py lines 85 to 89:
the validate_and_update_params decorator (modelled from the spec, utils.py
being absent from src) range-checks the value, commits it, then triggers a
synchronous derived-parameter recomputation whose result replaces the
snapshot.  The recomputation pipeline itself is abstracted as the function
argument derive. -/
noncomputable def uipSetObsFreq (B : Bounds)
    (derive : CalculationInput → DerivedSnapshot) (st : CalcSt) (v : ℝ) :
    Except PyErr CalcSt :=
  if validObsFreq B v then
    let cfg := st.config.writeObsFreq v
    .ok { st with config := cfg, dp := derive cfg.inputs }
  else .error .valueOutOfRange

/-! The sensitivity property setter, user_input_parameters.py lines 52 to
63.  Its body reads `Config.calculation_inputs` on the Config CLASS, not on
self.config: on a class, that attribute is the property descriptor object
itself (the descriptor protocol only fires on instances), and a property
object has no user_input attribute, so the first statement of the body
raises AttributeError before anything is written. -/

/-- The value of the name calculation_inputs looked up on the Config class
object: the property descriptor defined at config.py lines 35 to 40. -/
inductive ConfigClassAttr where
  | propertyDescriptor

/-- Attribute lookup of user_input on the class-level property descriptor
object: a property object has no such attribute, so the access raises
AttributeError and produces no value. -/
def ConfigClassAttr.getattrUserInput : ConfigClassAttr → Except PyErr Empty :=
  fun _ => .error .attributeError

open Classical in
/-- The sensitivity property setter of user_input_parameters.py lines 52 to
63: the validate_value decorator (modelled from the spec) range-checks the
value, then the body attempts
`Config.calculation_inputs.user_input.sensitivity.value = value`, whose
attribute lookup on the class-level property descriptor raises. -/
noncomputable def uipSetSensitivity (B : Bounds) (st : CalcSt) (v : FluxQ) :
    Except PyErr CalcSt :=
  if validSens B v then
    match ConfigClassAttr.getattrUserInput .propertyDescriptor with
    | .error e => .error e
    | .ok h => h.elim
  else .error .valueOutOfRange

/-! ## The sensitivity and integration-time calculations -/

/-- The radiometer formula of calculator.py lines 83 to 85, evaluated with
the current derived parameters and stored n_pol and bandwidth.  The
magnitudes are consistent SI-style units, so the resulting flux density is
carried in Jy. -/
noncomputable def rawSensitivity (st : CalcSt) (t : TimeQ) : FluxQ :=
  ⟨st.dp.sefd / (st.dp.eta_s * Real.sqrt (st.nPol * st.bandwidth * t.toSec)), .Jy⟩

/-- The inverse radiometer formula of calculator.py lines 136 to 137,
producing a time in seconds. -/
noncomputable def rawTintegration (st : CalcSt) (s : FluxQ) : TimeQ :=
  ⟨(st.dp.sefd / (s.toJy * st.dp.eta_s)) ^ 2 / (st.nPol * st.bandwidth), .second⟩

open Classical in
/-- Calculator.calculate_sensitivity, calculator.py lines 59 to 109.
With an explicit t_int the value is committed through the validating
t_int setter (update path) or merely validated (no-update path); either
path raises on an out-of-range t_int.  The result is tiered and, when
update_calculator is true, assigned to the plain instance attribute
self.sensitivity: that assignment cannot raise, so the except branch at
lines 100 to 107 is unreachable and no warning is ever emitted. -/
noncomputable def calculate_sensitivity (B : Bounds) (st : CalcSt)
    (tOpt : Option TimeQ) (updateCalculator : Bool) :
    Except PyErr (FluxQ × CalcSt × List CalcWarning) :=
  let tRes : Except PyErr (TimeQ × CalcSt) :=
    match tOpt with
    | some t =>
        if updateCalculator then (uipSetTint B st t).map fun st1 => (t, st1)
        else (dataHelperValidateTint B t).map fun _ => (t, st)
    | none => .ok (st.uipTint, st)
  match tRes with
  | .error e => .error e
  | .ok (t, st1) =>
      let sensitivity := tierFlux (rawSensitivity st1 t)
      if updateCalculator then
        .ok (sensitivity, { st1 with sensitivityAttr := sensitivity }, [])
      else
        .ok (sensitivity, st1, [])

open Classical in
/-- Calculator.calculate_t_integration, calculator.py lines 111 to 156.
With an explicit sensitivity and update_calculator true, line 130 assigns
the plain instance attribute self.sensitivity, performing no validation
and leaving the Parameter Store untouched; without an explicit value,
line 134 reads that same attribute.  The tiered result is assigned to the
plain attribute self.t_int, so the except branch at lines 152 to 154 is
unreachable and no warning is ever emitted. -/
noncomputable def calculate_t_integration (B : Bounds) (st : CalcSt)
    (sOpt : Option FluxQ) (updateCalculator : Bool) :
    Except PyErr (TimeQ × CalcSt × List CalcWarning) :=
  let sRes : Except PyErr (FluxQ × CalcSt) :=
    match sOpt with
    | some s =>
        if updateCalculator then .ok (s, { st with sensitivityAttr := s })
        else (dataHelperValidateSens B s).map fun _ => (s, st)
    | none => .ok (st.sensitivityAttr, st)
  match sRes with
  | .error e => .error e
  | .ok (s, st1) =>
      let t_int := tierTime (rawTintegration st1 s)
      if updateCalculator then
        .ok (t_int, { st1 with tIntAttr := some t_int }, [])
      else
        .ok (t_int, st1, [])

/-- Calculator.reset, calculator.py lines 162 to 169: reset the config,
then call _calculate_derived_parameters; the source discards the returned
snapshot, so self._dp keeps its previous value. -/
def calculatorReset (derive : CalculationInput → DerivedSnapshot)
    (st : CalcSt) : CalcSt :=
  let cfg := st.config.reset
  let _discarded := derive cfg.inputs
  { st with config := cfg }

/-- Calculator construction, calculator.py lines 31 to 52: build the
Config, compute the derived parameters, and create the plain instance
attribute self.sensitivity from the stored user-input sensitivity.  The
self.t_int attribute does not exist yet. -/
def calculatorConstruct (derive : CalculationInput → DerivedSnapshot)
    (ci : CalculationInput) : CalcSt :=
  let cfg := Config.construct ci
  { config := cfg
    dp := derive cfg.inputs
    sensitivityAttr := cfg.inputs.user_input.sensitivity
    tIntAttr := none }

/-! ## The derived-parameter engine (calculator.py lines 235 to 350)

The SEFD computation of Calculator._calculate_derived_parameters.
Frequencies are handled in GHz; the atmosphere table grid and the band
edges are exact rationals so that the grid selection is decidable.  The
atmosphere model and the temperature model live in derived_groups.py,
which is absent from src and external per spec section 2: the composite
map from a frequency to the system temperature computed from that
frequency (tau and T_atm lookups fed into Temperatures) is therefore a
function parameter Tsys, and the aperture efficiency eta_a computed once
by Efficiencies is a real parameter. -/

/-- The Boltzmann constant of astropy, J per K. -/
noncomputable def kB : ℝ := 1.380649e-23

/-- Calculator._calculate_sefd, calculator.py lines 334 to 350:
sefd = 2 k_B T_sys / (eta_a pi dish_radius squared), evaluated at the
system temperature obtained for frequency f. -/
noncomputable def sefdAt (Tsys : ℚ → ℝ) (etaA dishRadius : ℝ) (f : ℚ) : ℝ :=
  2 * kB * Tsys f / (etaA * (Real.pi * dishRadius ^ 2))

/-- Lower band edge, calculator.py line 286. -/
def bandLow (obsFreq bandwidth : ℚ) : ℚ := obsFreq - 0.50 * bandwidth

/-- Upper band edge, calculator.py line 287. -/
def bandUpp (obsFreq bandwidth : ℚ) : ℚ := obsFreq + 0.50 * bandwidth

/-- Grid points of the atmosphere table strictly inside the band,
calculator.py lines 290 to 291. -/
def interiorPoints (table : List ℚ) (low upp : ℚ) : List ℚ :=
  table.filter fun x => decide (low < x) && decide (x < upp)

/-- The frequency list padded with the band edges, calculator.py line 294. -/
def paddedList (table : List ℚ) (low upp : ℚ) : List ℚ :=
  low :: interiorPoints table low upp ++ [upp]

/-- Consecutive pairs of a list, the shape underlying the numpy slices
list[:-1] and list[1:]. -/
def consecPairs (l : List ℚ) : List (ℚ × ℚ) := l.zip l.tail

/-- The sub-channel widths, calculator.py line 308. -/
def chanWidths (l : List ℚ) : List ℚ := (consecPairs l).map fun p => p.2 - p.1

/-- The sub-channel midpoint frequencies, calculator.py line 309. -/
def chanMids (l : List ℚ) : List ℚ := (consecPairs l).map fun p => (p.2 + p.1) * 0.50

/-- The per-channel SEFD values, calculator.py lines 312 to 320. -/
noncomputable def chanSefds (Tsys : ℚ → ℝ) (etaA dishRadius : ℝ)
    (l : List ℚ) : List ℝ :=
  (chanMids l).map (sefdAt Tsys etaA dishRadius)

open Classical in
/-- The SEFD produced by Calculator._calculate_derived_parameters,
calculator.py lines 286 to 325.  In finetune mode the band is decomposed
into sub-channels and the per-channel SEFD values are combined by
inverse-variance summation; the branch condition tests the length of the
already padded list, exactly as line 304 does.  Otherwise the single
band-centre SEFD is used. -/
noncomputable def calculateDerivedSefd (finetune : Bool) (Tsys : ℚ → ℝ)
    (etaA dishRadius : ℝ) (table : List ℚ) (obsFreq bandwidth : ℚ) : ℝ :=
  let low := bandLow obsFreq bandwidth
  let upp := bandUpp obsFreq bandwidth
  let obs_freq_list := paddedList table low upp
  if finetune = true ∧ obs_freq_list.length > 1 then
    let obs_band_list := chanWidths obs_freq_list
    let sefds := chanSefds Tsys etaA dishRadius obs_freq_list
    Real.sqrt ((bandwidth : ℝ) /
      ((obs_band_list.zip sefds).map fun p => (p.1 : ℝ) / p.2 ^ 2).sum)
  else
    sefdAt Tsys etaA dishRadius obsFreq

/-! ## Instrument matching (calculator.py lines 192 to 233) -/

/-- The instrument identifiers of the static lookup tables in
Calculator.find_applicable_instruments. -/
inductive Instrument where
  | finer
  | sepia
  | chai
  | tifuun
  | gltcam
  | muscat
deriving DecidableEq

/-- The iteration order of the instrument dictionaries, calculator.py
lines 198 to 214. -/
def allInstruments : List Instrument :=
  [.finer, .sepia, .chai, .tifuun, .gltcam, .muscat]

/-- The frequency coverage table instrument_obs_freqs, calculator.py
lines 198 to 205, in GHz. -/
def instrumentObsFreqs : Instrument → List (ℚ × ℚ)
  | .finer => [(120, 360)]
  | .sepia => [(163, 211), (272, 376), (600, 722)]
  | .chai => [(460, 500), (780, 820)]
  | .tifuun => [(90, 360)]
  | .gltcam => [(130, 170), (190, 250), (250, 295), (330, 365), (385, 415), (630, 710)]
  | .muscat => [(250, 300)]

/-- The bandwidth coverage table instrument_bandw_vals, calculator.py
lines 207 to 214. -/
def instrumentBandwVals : Instrument → List (ℚ × ℚ)
  | .finer => [(10500, 3000000)]
  | .sepia => [(10000, 5600000), (10000, 32000000), (10000, 10000000)]
  | .chai => [(10000, 1000000), (10000, 1000000)]
  | .tifuun => [(10, 1000)]
  | .gltcam => [(1, 5), (1, 5), (1, 5), (1, 5), (1, 5), (1, 5)]
  | .muscat => [(1, 5)]

/-- The frequency matching loop of calculator.py lines 217 to 222: an
instrument is appended once per coverage tuple whose interior strictly
contains the observing frequency. -/
def applicableFreqInstruments (obsFreq : ℚ) : List Instrument :=
  allInstruments.flatMap fun instrument =>
    (instrumentObsFreqs instrument).filterMap fun t =>
      if t.1 < obsFreq ∧ obsFreq < t.2 then some instrument else none

/-- The bandwidth matching loop of calculator.py lines 224 to 229. -/
def applicableBandwInstruments (bandwidth : ℚ) : List Instrument :=
  allInstruments.flatMap fun instrument =>
    (instrumentBandwVals instrument).filterMap fun t =>
      if t.1 < bandwidth ∧ bandwidth < t.2 then some instrument else none

/-- Calculator.find_applicable_instruments, calculator.py line 231: the
set intersection of the two matching lists. -/
def findApplicableInstruments (obsFreq bandwidth : ℚ) : Finset Instrument :=
  (applicableFreqInstruments obsFreq).toFinset ∩
    (applicableBandwInstruments bandwidth).toFinset

/-! ## Claim C9: instrument matching -/

theorem mem_allInstruments (i : Instrument) : i ∈ allInstruments := by
  cases i <;> simp [allInstruments]

/-- C9: find_applicable_instruments returns exactly the instruments lying
in both the frequency-match set and the bandwidth-match set, where a
coverage interval matches only with strict inequality at both endpoints;
in particular the finer range (120, 360) GHz does not match an observing
frequency of exactly 120 or exactly 360 but does match 200. -/
theorem claim_C9 :
    (∀ (f bw : ℚ) (i : Instrument),
        i ∈ findApplicableInstruments f bw ↔
          ((∃ t ∈ instrumentObsFreqs i, t.1 < f ∧ f < t.2) ∧
           (∃ t ∈ instrumentBandwVals i, t.1 < bw ∧ bw < t.2))) ∧
    Instrument.finer ∉ applicableFreqInstruments 120 ∧
    Instrument.finer ∉ applicableFreqInstruments 360 ∧
    Instrument.finer ∈ applicableFreqInstruments 200 := by
  refine ⟨?_, by decide, by decide, by decide⟩
  intro f bw i
  simp only [findApplicableInstruments, Finset.mem_inter, List.mem_toFinset,
    applicableFreqInstruments, applicableBandwInstruments, List.mem_flatMap,
    List.mem_filterMap, Option.ite_none_right_eq_some, Option.some.injEq]
  constructor
  · rintro ⟨⟨a, -, t, ht, hc, rfl⟩, ⟨b, -, t2, ht2, hc2, hbi⟩⟩
    subst hbi
    exact ⟨⟨t, ht, hc⟩, ⟨t2, ht2, hc2⟩⟩
  · rintro ⟨⟨t, ht, hc⟩, ⟨t2, ht2, hc2⟩⟩
    exact ⟨⟨i, mem_allInstruments i, t, ht, hc, rfl⟩,
      ⟨i, mem_allInstruments i, t2, ht2, hc2, rfl⟩⟩

/-! ## Shape lemmas for the calculation paths -/

theorem calcSens_some_false (B : Bounds) (st : CalcSt) (t : TimeQ)
    (h : validTint B t) :
    calculate_sensitivity B st (some t) false =
      .ok (tierFlux (rawSensitivity st t), st, []) := by
  simp [calculate_sensitivity, dataHelperValidateTint, h, Except.map]

theorem calcSens_some_true (B : Bounds) (st : CalcSt) (t : TimeQ)
    (h : validTint B t) :
    calculate_sensitivity B st (some t) true =
      .ok (tierFlux (rawSensitivity { st with config := st.config.writeTint t } t),
        { st with
            config := st.config.writeTint t
            sensitivityAttr :=
              tierFlux (rawSensitivity { st with config := st.config.writeTint t } t) },
        []) := by
  simp [calculate_sensitivity, uipSetTint, h, Except.map]

theorem calcSens_none (B : Bounds) (st : CalcSt) :
    calculate_sensitivity B st none false =
      .ok (tierFlux (rawSensitivity st st.uipTint), st, []) := by
  simp [calculate_sensitivity]

theorem calcSens_none_true (B : Bounds) (st : CalcSt) :
    calculate_sensitivity B st none true =
      .ok (tierFlux (rawSensitivity st st.uipTint),
        { st with sensitivityAttr := tierFlux (rawSensitivity st st.uipTint) }, []) := by
  simp [calculate_sensitivity]

theorem calcTint_some_false (B : Bounds) (st : CalcSt) (sq : FluxQ)
    (h : validSens B sq) :
    calculate_t_integration B st (some sq) false =
      .ok (tierTime (rawTintegration st sq), st, []) := by
  simp [calculate_t_integration, dataHelperValidateSens, h, Except.map]

theorem calcTint_none_true (B : Bounds) (st : CalcSt) :
    calculate_t_integration B st none true =
      .ok (tierTime (rawTintegration st st.sensitivityAttr),
        { st with tIntAttr := some (tierTime (rawTintegration st st.sensitivityAttr)) },
        []) := by
  simp [calculate_t_integration]

theorem calcTint_none_false (B : Bounds) (st : CalcSt) :
    calculate_t_integration B st none false =
      .ok (tierTime (rawTintegration st st.sensitivityAttr), st, []) := by
  simp [calculate_t_integration]

/-- Committing a new t_int leaves every other stored field and the derived
snapshot unchanged, so the radiometer formula evaluated after the commit
coincides with the one evaluated before it. -/
theorem rawSensitivity_writeTint (st : CalcSt) (t v : TimeQ) :
    rawSensitivity { st with config := st.config.writeTint v } t =
      rawSensitivity st t := by
  simp [rawSensitivity, CalcSt.nPol, CalcSt.bandwidth, ConfigSt.writeTint,
    ConfigSt.writeLive, ConfigSt.inputs, Function.update_same]

theorem inputs_writeTint (c : ConfigSt) (v : TimeQ) :
    (c.writeTint v).inputs =
      { c.inputs with user_input := { c.inputs.user_input with t_int := v } } := by
  simp [ConfigSt.writeTint, ConfigSt.writeLive, ConfigSt.inputs, Function.update_same]

/-! ## Concrete example data used by the counterexamples and witnesses -/

/-- A concrete user input: t_int of one second, stored sensitivity of zero
mJy, unit bandwidth and single polarisation. -/
def uiC : UserInput :=
  { obs_freq := 100, bandwidth := 1, n_pol := 1, weather := 0.5, elevation := 45
    t_int := ⟨1, .second⟩, sensitivity := ⟨0, .mJy⟩ }

/-- A concrete instrument setup. -/
def isC : InstrumentSetup :=
  { g := 0, surface_rms := 25, dish_radius := 25, T_amb := 270, eta_eff := 0.8
    eta_ill := 0.8, eta_spill := 0.95, eta_block := 0.94, eta_pol := 0.995 }

/-- A concrete calculation input aggregate. -/
def ciC : CalculationInput := { user_input := uiC, instrument_setup := isC, T_cmb := 2.73 }

/-- A concrete derived snapshot with unit efficiency and unit SEFD. -/
def dpC : DerivedSnapshot :=
  { tau_atm := 0, T_atm := 0, T_rx := 0, eta_a := 0.5, eta_s := 1
    T_sys := 0, T_sky := 0, sefd := 1 }

/-- A concrete calculator state built over ciC. -/
def stC : CalcSt :=
  { config := Config.construct ciC, dp := dpC
    sensitivityAttr := ⟨0, .mJy⟩, tIntAttr := none }

/-- Wide-open bounds: every range check passes. -/
def B0 : Bounds :=
  { tIntMin := 0, tIntMax := 1000000000, sensMin := 0, sensMax := 1000000000
    obsFreqMin := 0, obsFreqMax := 1000000000 }

/-- A concrete derivation function exhibiting the dependence of the
derived snapshot on the observing frequency. -/
def deriveC : CalculationInput → DerivedSnapshot :=
  fun ci => { tau_atm := 0, T_atm := 0, T_rx := 0, eta_a := 0, eta_s := 0
              T_sys := 0, T_sky := 0, sefd := ci.user_input.obs_freq }

theorem sqrtFour : Real.sqrt 4 = 2 := by
  rw [show (4 : ℝ) = 2 ^ 2 by norm_num]
  exact Real.sqrt_sq (by norm_num)

/-! ## Claim C1: calculate_sensitivity with update_calculator true -/

/-- C1 (amended): for a t_int inside the declared range,
calculate_sensitivity(t_int, update_calculator=true) computes
sensitivity = sefd / (eta_s sqrt(n_pol bandwidth t_int)) from the current
derived parameters and returns it tiered; the given t_int is validated
and committed to the Parameter Store, and the result is assigned to the
plain Calculator attribute self.sensitivity without any range validation,
while the sensitivity stored in the Parameter Store is left unchanged. -/
theorem claim_C1_amended (B : Bounds) (st : CalcSt) (t : TimeQ)
    (h : validTint B t) :
    ∃ v st2,
      calculate_sensitivity B st (some t) true = .ok (v, st2, []) ∧
      v = tierFlux (rawSensitivity st t) ∧
      v.toJy = st.dp.sefd /
        (st.dp.eta_s * Real.sqrt (st.nPol * st.bandwidth * t.toSec)) ∧
      st2.config.inputs.user_input.t_int = t ∧
      st2.sensitivityAttr = v ∧
      st2.config.inputs.user_input.sensitivity =
        st.config.inputs.user_input.sensitivity := by
  refine ⟨tierFlux (rawSensitivity st t),
    { st with
        config := st.config.writeTint t
        sensitivityAttr := tierFlux (rawSensitivity st t) },
    ?_, rfl, ?_, ?_, rfl, ?_⟩
  · rw [calcSens_some_true B st t h, rawSensitivity_writeTint]
  · rw [FluxQ.toJy, tierFlux_tomJy]
    simp [rawSensitivity, FluxQ.tomJy, FluxUnit.mJyFactor]
  · simp [inputs_writeTint]
  · simp [inputs_writeTint]

/-- C1 counterexample: at the concrete state stC with t_int of four
seconds, the computed sensitivity is 500 mJy but the sensitivity stored in
the Parameter Store after the call is still 0 mJy: the result is never
committed to the Parameter Store. -/
theorem claim_C1_counterexample :
    (calculate_sensitivity B0 stC (some ⟨4, .second⟩) true).toOption.map
        (fun r => (r.1.tomJy, r.2.1.config.inputs.user_input.sensitivity.tomJy)) =
      some (500, 0) ∧ (500 : ℝ) ≠ 0 := by
  have h : validTint B0 ⟨4, .second⟩ := by
    constructor <;> norm_num [validTint, TimeQ.toSec, TimeUnit.secFactor, B0]
  constructor
  · rw [calcSens_some_true B0 stC _ h]
    have harg : stC.nPol * stC.bandwidth * (TimeQ.mk 4 .second).toSec = 4 := by
      norm_num [stC, ciC, uiC, CalcSt.nPol, CalcSt.bandwidth, ConfigSt.inputs,
        Config.construct, TimeQ.toSec, TimeUnit.secFactor]
    rw [rawSensitivity_writeTint]
    simp only [Except.toOption, Option.map, tierFlux_tomJy, inputs_writeTint]
    rw [rawSensitivity, harg, sqrtFour]
    norm_num [FluxQ.tomJy, FluxUnit.mJyFactor, stC, ciC, uiC, dpC,
      ConfigSt.inputs, Config.construct]
  · norm_num

/-! ## Claim C2: rollback and warning on out-of-range computed results -/

/-- A calculator state whose inverse calculation lands far outside the
declared t_int range: stored sensitivity attribute 1 mJy, SEFD 0.12 Jy. -/
def stD : CalcSt :=
  { config := Config.construct
      { user_input := { uiC with bandwidth := 2 }
        instrument_setup := isC, T_cmb := 2.73 }
    dp := { dpC with sefd := 0.12, eta_s := 1 }
    sensitivityAttr := ⟨1, .mJy⟩, tIntAttr := none }

/-- Bounds whose declared t_int range tops out at 100 seconds. -/
def B2 : Bounds :=
  { tIntMin := 0, tIntMax := 100, sensMin := 0, sensMax := 1000000000
    obsFreqMin := 0, obsFreqMax := 1000000000 }

/-- C2 evaluation: at stD the computed integration time is 7200 seconds,
far beyond the declared maximum of 100 seconds, yet calculate_t_integration
with update_calculator=true commits it to the stored t_int attribute and
raises no warning: the assignment self.t_int is a plain attribute write
that cannot raise, so the rollback and warning path of the source is dead
code. -/
theorem claim_C2_code_evaluation :
    (calculate_t_integration B2 stD none true).toOption.map
        (fun r => (r.1.toSec, r.2.1.tIntAttr.map TimeQ.toSec, r.2.2)) =
      some (7200, some 7200, []) ∧ ¬ (7200 : ℝ) ≤ B2.tIntMax := by
  constructor
  · rw [calcTint_none_true]
    have hraw : (rawTintegration stD stD.sensitivityAttr).toSec = 7200 := by
      norm_num [rawTintegration, stD, dpC, uiC, CalcSt.nPol, CalcSt.bandwidth,
        ConfigSt.inputs, Config.construct, TimeQ.toSec, TimeUnit.secFactor,
        FluxQ.toJy, FluxQ.tomJy, FluxUnit.mJyFactor]
    simp only [Except.toOption, Option.map, tierTime_toSec, hraw]
  · norm_num [B2]

/-! ## Claims C3 and C4: the reset discipline -/

/-- C3 evaluation: Config.reset assigns the snapshot reference to the live
field instead of copying its value.  Starting from construction over ciC
(whose t_int is one second), the sequence reset, valid t_int mutation to
five seconds, reset leaves the live inputs at five seconds and has mutated
the construction-time snapshot itself, so the second reset does not
restore the construction-time state. -/
theorem claim_C3_code_evaluation :
    (uipSetTint B0 (calculatorReset deriveC (calculatorConstruct deriveC ciC))
        ⟨5, .second⟩).toOption.map
        (fun st2 =>
          ((calculatorReset deriveC st2).config.inputs.user_input.t_int.mag,
           st2.config.originals.user_input.t_int.mag)) = some (5, 5) ∧
    ciC.user_input.t_int.mag = 1 ∧ (5 : ℝ) ≠ 1 := by
  refine ⟨?_, rfl, by norm_num⟩
  have h : validTint B0 ⟨5, .second⟩ := by
    constructor <;> norm_num [validTint, TimeQ.toSec, TimeUnit.secFactor, B0]
  rw [uipSetTint, if_pos h]
  simp [Except.toOption, calculatorReset, calculatorConstruct, Config.construct,
    ConfigSt.reset, ConfigSt.writeTint, ConfigSt.writeLive, ConfigSt.inputs,
    ConfigSt.originals, Function.update_same]

/-- C4 evaluation: Calculator.reset recomputes the derived parameters but
discards the result, so the snapshot self._dp read by subsequent
calculations is the one computed before the reset.  With a derivation
function whose SEFD equals the observing frequency, mutating obs_freq
from 100 to 200 and then resetting restores the stored obs_freq to 100
while the derived snapshot still carries SEFD 200, although recomputation
from the restored inputs would give 100. -/
theorem claim_C4_code_evaluation :
    (uipSetObsFreq B0 deriveC (calculatorConstruct deriveC ciC) 200).toOption.map
        (fun st1 =>
          ((calculatorReset deriveC st1).config.inputs.user_input.obs_freq,
           (calculatorReset deriveC st1).dp.sefd,
           (deriveC (calculatorReset deriveC st1).config.inputs).sefd)) =
      some (100, 200, 100) ∧ (200 : ℝ) ≠ 100 := by
  refine ⟨?_, by norm_num⟩
  have h : validObsFreq B0 200 := by constructor <;> norm_num [validObsFreq, B0]
  rw [uipSetObsFreq, if_pos h]
  simp [Except.toOption, calculatorReset, calculatorConstruct, Config.construct,
    ConfigSt.reset, ConfigSt.writeObsFreq, ConfigSt.writeLive, ConfigSt.inputs,
    deriveC, Function.update, ciC, uiC]


theorem toSec_mk_second (x : ℝ) : (TimeQ.mk x .second).toSec = x := by
  simp [TimeQ.toSec, TimeUnit.secFactor]

/-! ## Claim C5: the round trip -/

/-- C5: with a fixed configuration and positive derived parameters, a
t_int in the valid range whose tiered sensitivity is itself inside the
declared sensitivity range satisfies
calculate_t_integration(calculate_sensitivity(t_int, false), false) = t_int
exactly (idealised real arithmetic, hence within any numerical
tolerance), and neither call changes the calculator state. -/
theorem claim_C5 (B : Bounds) (st : CalcSt) (t : TimeQ)
    (ht : validTint B t)
    (hsefd : 0 < st.dp.sefd) (heta : 0 < st.dp.eta_s)
    (hnpol : 0 < st.nPol) (hbw : 0 < st.bandwidth) (htpos : 0 < t.toSec)
    (hs : validSens B (tierFlux (rawSensitivity st t))) :
    ∃ sv t2,
      calculate_sensitivity B st (some t) false = .ok (sv, st, []) ∧
      calculate_t_integration B st (some sv) false = .ok (t2, st, []) ∧
      t2.toSec = t.toSec := by
  have hXpos : 0 < st.nPol * st.bandwidth * t.toSec := by positivity
  have hr : 0 < Real.sqrt (st.nPol * st.bandwidth * t.toSec) :=
    Real.sqrt_pos.mpr hXpos
  refine ⟨tierFlux (rawSensitivity st t),
    tierTime (rawTintegration st (tierFlux (rawSensitivity st t))),
    calcSens_some_false B st t ht, calcTint_some_false B st _ hs, ?_⟩
  rw [tierTime_toSec]
  have hsJy : (tierFlux (rawSensitivity st t)).toJy =
      st.dp.sefd / (st.dp.eta_s * Real.sqrt (st.nPol * st.bandwidth * t.toSec)) := by
    rw [FluxQ.toJy, tierFlux_tomJy]
    simp [rawSensitivity, FluxQ.tomJy, FluxUnit.mJyFactor]
  have h1 : st.dp.sefd /
      (st.dp.sefd / (st.dp.eta_s * Real.sqrt (st.nPol * st.bandwidth * t.toSec)) *
        st.dp.eta_s) = Real.sqrt (st.nPol * st.bandwidth * t.toSec) := by
    have e1 : st.dp.sefd ≠ 0 := ne_of_gt hsefd
    have e2 : st.dp.eta_s ≠ 0 := ne_of_gt heta
    have e3 : Real.sqrt (st.nPol * st.bandwidth * t.toSec) ≠ 0 := ne_of_gt hr
    field_simp
    ring
  rw [rawTintegration, toSec_mk_second, hsJy, h1, Real.sq_sqrt hXpos.le]
  have e4 : st.nPol ≠ 0 := ne_of_gt hnpol
  have e5 : st.bandwidth ≠ 0 := ne_of_gt hbw
  field_simp

/-- C5 witness: the round trip at the concrete state stC with a four
second integration time. -/
theorem claim_C5_witness :
    ∃ sv t2,
      calculate_sensitivity B0 stC (some ⟨4, .second⟩) false = .ok (sv, stC, []) ∧
      calculate_t_integration B0 stC (some sv) false = .ok (t2, stC, []) ∧
      t2.toSec = (⟨4, .second⟩ : TimeQ).toSec := by
  have harg : stC.nPol * stC.bandwidth * (TimeQ.mk 4 .second).toSec = 4 := by
    norm_num [stC, ciC, uiC, CalcSt.nPol, CalcSt.bandwidth, ConfigSt.inputs,
      Config.construct, TimeQ.toSec, TimeUnit.secFactor]
  have h500 : (tierFlux (rawSensitivity stC ⟨4, .second⟩)).tomJy = 500 := by
    rw [tierFlux_tomJy, rawSensitivity, harg, sqrtFour]
    norm_num [FluxQ.tomJy, FluxUnit.mJyFactor, stC, dpC]
  apply claim_C5 B0 stC ⟨4, .second⟩
  · constructor <;> norm_num [validTint, TimeQ.toSec, TimeUnit.secFactor, B0]
  · norm_num [stC, dpC]
  · norm_num [stC, dpC]
  · norm_num [CalcSt.nPol, stC, ciC, uiC, ConfigSt.inputs, Config.construct]
  · norm_num [CalcSt.bandwidth, stC, ciC, uiC, ConfigSt.inputs, Config.construct]
  · norm_num [TimeQ.toSec, TimeUnit.secFactor]
  · constructor <;> rw [h500] <;> norm_num [B0]

/-! ## Claim C6: unit tiering of both outputs -/

/-- C6: calculate_sensitivity reports its result in uJy when the computed
value is strictly below 1 mJy, in mJy when in [1, 1000) mJy and in Jy at
or above 1000 mJy, and calculate_t_integration reports in seconds below
60 s, minutes in [60, 3600) s and hours at or above 3600 s; in every case
the reported quantity equals the computed value under unit conversion. -/
theorem claim_C6 (B : Bounds) (st : CalcSt) (upd : Bool) :
    ∃ stS stT,
      calculate_sensitivity B st none upd =
        .ok (tierFlux (rawSensitivity st st.uipTint), stS, []) ∧
      (tierFlux (rawSensitivity st st.uipTint)).unit =
        (if (rawSensitivity st st.uipTint).tomJy < 1 then FluxUnit.uJy
         else if (rawSensitivity st st.uipTint).tomJy < 1000 then FluxUnit.mJy
         else FluxUnit.Jy) ∧
      (tierFlux (rawSensitivity st st.uipTint)).tomJy =
        (rawSensitivity st st.uipTint).tomJy ∧
      calculate_t_integration B st none upd =
        .ok (tierTime (rawTintegration st st.sensitivityAttr), stT, []) ∧
      (tierTime (rawTintegration st st.sensitivityAttr)).unit =
        (if (rawTintegration st st.sensitivityAttr).toSec < 60 then TimeUnit.second
         else if (rawTintegration st st.sensitivityAttr).toSec < 3600 then
           TimeUnit.minute
         else TimeUnit.hour) ∧
      (tierTime (rawTintegration st st.sensitivityAttr)).toSec =
        (rawTintegration st st.sensitivityAttr).toSec := by
  cases upd
  · exact ⟨st, st, calcSens_none B st, tierFlux_unit _, tierFlux_tomJy _,
      calcTint_none_false B st, tierTime_unit _, tierTime_toSec _⟩
  · exact ⟨_, _, calcSens_none_true B st, tierFlux_unit _, tierFlux_tomJy _,
      calcTint_none_true B st, tierTime_unit _, tierTime_toSec _⟩

/-! ## Claim C10: the broken sensitivity setter -/

/-- C10: the UserInputParameters sensitivity setter never updates the
stored sensitivity of the instance config: its body writes through the
Config class object, so for a value passing validation it raises
AttributeError, and for no value does it ever return an updated state. -/
theorem claim_C10 (B : Bounds) (st : CalcSt) (v : FluxQ) :
    (∀ st2, uipSetSensitivity B st v ≠ .ok st2) ∧
    (validSens B v → uipSetSensitivity B st v = .error .attributeError) := by
  constructor
  · intro st2
    by_cases h : validSens B v
    · simp [uipSetSensitivity, h, ConfigClassAttr.getattrUserInput]
    · simp [uipSetSensitivity, h]
  · intro h
    simp [uipSetSensitivity, h, ConfigClassAttr.getattrUserInput]

/-- C10 witness: a 1 mJy value passes the range check and the setter
raises AttributeError on it. -/
theorem claim_C10_witness :
    validSens B0 ⟨1, .mJy⟩ ∧
    uipSetSensitivity B0 stC ⟨1, .mJy⟩ = .error .attributeError := by
  have h : validSens B0 ⟨1, .mJy⟩ := by
    constructor <;> norm_num [validSens, FluxQ.tomJy, FluxUnit.mJyFactor, B0]
  exact ⟨h, (claim_C10 B0 stC ⟨1, .mJy⟩).2 h⟩

/-! ## Claims C7 and C8: the finetune SEFD combination -/

theorem paddedList_length (table : List ℚ) (low upp : ℚ) :
    (paddedList table low upp).length = (interiorPoints table low upp).length + 2 := by
  simp [paddedList]

/-- With no interior grid point the padded list is just the two band
edges: one sub-channel covering the whole band. -/
theorem paddedList_of_empty (table : List ℚ) (low upp : ℚ)
    (h : interiorPoints table low upp = []) :
    paddedList table low upp = [low, upp] := by
  simp [paddedList, h]

/-- C7 (amended): in finetune mode, whenever no atmosphere-table grid
point falls strictly inside the band, the band is treated as a single
sub-channel whose midpoint is the band centre, and the computed SEFD
equals the simple-mode SEFD evaluated at the band-centre frequency.
(The source never branches to the simple-mode path in finetune mode,
because the length test at calculator.py line 304 inspects the list
already padded with the two band edges; with exactly one interior grid
point the two-channel combination is used instead, and the result can
differ from the simple-mode SEFD.) -/
theorem claim_C7_amended (Tsys : ℚ → ℝ) (etaA dishRadius : ℝ) (table : List ℚ)
    (obsFreq bandwidth : ℚ)
    (h0 : interiorPoints table (bandLow obsFreq bandwidth)
        (bandUpp obsFreq bandwidth) = [])
    (hbw : 0 < bandwidth)
    (hsefd : 0 < sefdAt Tsys etaA dishRadius obsFreq) :
    calculateDerivedSefd true Tsys etaA dishRadius table obsFreq bandwidth =
      sefdAt Tsys etaA dishRadius obsFreq := by
  have hmid : (bandUpp obsFreq bandwidth + bandLow obsFreq bandwidth) * 0.50 =
      obsFreq := by
    rw [bandUpp, bandLow]; ring
  have hwidth : bandUpp obsFreq bandwidth - bandLow obsFreq bandwidth =
      bandwidth := by
    rw [bandUpp, bandLow]; ring
  have hb2 : ((bandwidth : ℚ) : ℝ) ≠ 0 := by
    exact_mod_cast ne_of_gt hbw
  have hs2 : sefdAt Tsys etaA dishRadius obsFreq ≠ 0 := ne_of_gt hsefd
  simp only [calculateDerivedSefd, paddedList_of_empty _ _ _ h0]
  rw [if_pos (by norm_num)]
  simp only [chanWidths, chanMids, chanSefds, consecPairs, List.tail_cons,
    List.zip_cons_cons, List.zip_nil_right, List.map_cons, List.map_nil,
    List.sum_cons, List.sum_nil, hmid, hwidth]
  have key : ((bandwidth : ℚ) : ℝ) /
      (((bandwidth : ℚ) : ℝ) / sefdAt Tsys etaA dishRadius obsFreq ^ 2 + 0) =
      sefdAt Tsys etaA dishRadius obsFreq ^ 2 := by
    rw [add_zero]
    field_simp
  rw [key]
  exact Real.sqrt_sq hsefd.le

/-- C7 witness instance: an empty atmosphere table, a band of width 8
around 10 GHz and a constant unit system temperature. -/
theorem claim_C7_witness :
    calculateDerivedSefd true (fun _ => 1) 1 1 [] 10 8 =
      sefdAt (fun _ => 1) 1 1 10 := by
  have hkB : (0 : ℝ) < kB := by rw [kB]; norm_num
  have hpi := Real.pi_pos
  apply claim_C7_amended
  · rfl
  · norm_num
  · rw [sefdAt]
    have h1 : (0 : ℝ) < 2 * kB * 1 := by nlinarith
    have h2 : (0 : ℝ) < 1 * (Real.pi * 1 ^ 2) := by nlinarith
    exact div_pos h1 h2

/-- A concrete system-temperature function: below 8 GHz the resulting
per-channel SEFD is 1, at or above it is 2 (the leading factor cancels
the physical constants of sefdAt). -/
noncomputable def Tsys7 : ℚ → ℝ :=
  fun f => Real.pi / (2 * kB) * (if f < 8 then 1 else 2)

theorem sefdAt_Tsys7 (f : ℚ) :
    sefdAt Tsys7 1 1 f = if f < 8 then 1 else 2 := by
  have hkB : (kB : ℝ) ≠ 0 := by rw [kB]; norm_num
  have hpi : Real.pi ≠ 0 := Real.pi_ne_zero
  rw [sefdAt, Tsys7]
  split_ifs <;> field_simp

/-- C7 counterexample: with the atmosphere grid [8] and the band
[6, 14] around 10 GHz, exactly one grid point lies strictly inside the
band (fewer than 2), yet finetune mode does not fall back to simple
mode: it combines the two sub-channels [6,8] and [8,14], producing
sqrt(16/7), which differs from the simple-mode band-centre SEFD 2. -/
theorem claim_C7_counterexample :
    (interiorPoints [8] (bandLow 10 8) (bandUpp 10 8)).length = 1 ∧
    calculateDerivedSefd true Tsys7 1 1 [8] 10 8 ≠ sefdAt Tsys7 1 1 10 := by
  have hpts : interiorPoints [8] (bandLow 10 8) (bandUpp 10 8) = [8] := by
    norm_num [interiorPoints, bandLow, bandUpp, List.filter]
  refine ⟨by rw [hpts]; rfl, ?_⟩
  have hpadded : paddedList [8] (bandLow 10 8) (bandUpp 10 8) = [6, 8, 14] := by
    rw [paddedList, hpts]
    norm_num [bandLow, bandUpp]
  have hL : calculateDerivedSefd true Tsys7 1 1 [8] 10 8 = Real.sqrt (16 / 7) := by
    simp only [calculateDerivedSefd, hpadded]
    rw [if_pos (by norm_num)]
    simp only [chanWidths, chanMids, chanSefds, consecPairs, List.tail_cons,
      List.zip_cons_cons, List.zip_nil_right, List.map_cons, List.map_nil,
      List.sum_cons, List.sum_nil]
    have hm1 : ((8 : ℚ) + 6) * 0.50 = 7 := by norm_num
    have hm2 : ((14 : ℚ) + 8) * 0.50 = 11 := by norm_num
    rw [hm1, hm2, sefdAt_Tsys7 7, sefdAt_Tsys7 11]
    rw [if_pos (by norm_num), if_neg (by norm_num)]
    norm_num
  have hR : sefdAt Tsys7 1 1 10 = 2 := by
    rw [sefdAt_Tsys7]
    norm_num
  rw [hL, hR]
  intro heq
  have h2 : ((16 : ℝ) / 7) = 4 := by
    have hsq := Real.sq_sqrt (by norm_num : (0 : ℝ) ≤ 16 / 7)
    rw [heq] at hsq
    norm_num at hsq
  norm_num at h2

/-- The consecutive differences of a list telescope to last minus first. -/
theorem chanWidths_sum (a : ℚ) (l : List ℚ) :
    (chanWidths (a :: l)).sum = l.getLastD a - a := by
  induction l generalizing a with
  | nil => simp [chanWidths, consecPairs]
  | cons b l2 ih =>
    have hb := ih b
    simp only [chanWidths, consecPairs, List.tail_cons, List.zip_cons_cons,
      List.map_cons, List.sum_cons] at hb ⊢
    rw [List.getLastD_cons]
    linarith [hb]

/-- The sub-channel widths of the padded list sum to the full bandwidth. -/
theorem chanWidths_paddedList_sum (table : List ℚ) (obsFreq bandwidth : ℚ) :
    (chanWidths (paddedList table (bandLow obsFreq bandwidth)
        (bandUpp obsFreq bandwidth))).sum = bandwidth := by
  rw [paddedList, List.cons_append, chanWidths_sum, List.getLastD_concat,
    bandUpp, bandLow]
  ring

/-- In a strictly sorted list every consecutive pair is increasing. -/
theorem pairwise_consec (l : List ℚ) (hp : l.Pairwise (· < ·)) :
    ∀ p ∈ consecPairs l, p.1 < p.2 := by
  induction l with
  | nil => intro p hp2; simp [consecPairs] at hp2
  | cons a l ih =>
    intro p hmem
    cases l with
    | nil => simp [consecPairs] at hmem
    | cons b l2 =>
      rw [List.pairwise_cons] at hp
      simp only [consecPairs, List.tail_cons, List.zip_cons_cons,
        List.mem_cons] at hmem
      rcases hmem with rfl | hmem
      · exact hp.1 b (by simp)
      · exact ih hp.2 p hmem

/-- The padded frequency list is strictly sorted whenever the atmosphere
table is and the band is nondegenerate. -/
theorem paddedList_pairwise (table : List ℚ) (low upp : ℚ)
    (hsort : table.Pairwise (· < ·)) (hlu : low < upp) :
    (paddedList table low upp).Pairwise (· < ·) := by
  have hpts : (interiorPoints table low upp).Pairwise (· < ·) :=
    List.Pairwise.sublist (List.filter_sublist _) hsort
  have hmem : ∀ x ∈ interiorPoints table low upp, low < x ∧ x < upp := by
    intro x hx
    simp only [interiorPoints, List.mem_filter, Bool.and_eq_true,
      decide_eq_true_eq] at hx
    exact hx.2
  rw [paddedList, List.cons_append, List.pairwise_cons]
  constructor
  · intro x hx
    rcases List.mem_append.mp hx with h | h
    · exact (hmem x h).1
    · rw [List.mem_singleton] at h
      subst h
      exact hlu
  · rw [List.pairwise_append]
    refine ⟨hpts, List.pairwise_singleton _ _, ?_⟩
    intro x hx y hy
    rw [List.mem_singleton] at hy
    subst hy
    exact (hmem x hx).2

/-- Bounding the inverse-variance sum: with positive widths and per-channel
values between lo and hi, the sum of width over value squared lies between
total width over hi squared and total width over lo squared. -/
theorem sum_div_sq_bounds (l : List (ℚ × ℝ)) (lo hi : ℝ) (hlo : 0 < lo)
    (h : ∀ p ∈ l, 0 < p.1 ∧ lo ≤ p.2 ∧ p.2 ≤ hi) :
    (l.map fun p => ((p.1 : ℝ))).sum / hi ^ 2 ≤
      (l.map fun p => (p.1 : ℝ) / p.2 ^ 2).sum ∧
    (l.map fun p => (p.1 : ℝ) / p.2 ^ 2).sum ≤
      (l.map fun p => ((p.1 : ℝ))).sum / lo ^ 2 := by
  induction l with
  | nil => simp
  | cons p l ih =>
    obtain ⟨hw, hl2, hh2⟩ := h p (List.mem_cons_self p l)
    obtain ⟨ih1, ih2⟩ := ih fun q hq => h q (List.mem_cons_of_mem p hq)
    have hp2 : 0 < p.2 := lt_of_lt_of_le hlo hl2
    have hhi : 0 < hi := lt_of_lt_of_le hp2 hh2
    have hwpos : (0 : ℝ) < (p.1 : ℝ) := by exact_mod_cast hw
    simp only [List.map_cons, List.sum_cons]
    constructor
    · rw [add_div]
      refine add_le_add ?_ ih1
      gcongr
    · rw [add_div]
      refine add_le_add ?_ ih2
      gcongr

/-- C8: in finetune mode (the padded channel list always has at least one
sub-channel) the effective SEFD equals
sqrt(total_bandwidth / sum(channel_width_i / sefd_i squared)) over the
sub-channels partitioning the band, and consequently lies between any
lower bound lo and upper bound hi enclosing all per-channel SEFD values. -/
theorem claim_C8 (Tsys : ℚ → ℝ) (etaA dishRadius : ℝ) (table : List ℚ)
    (obsFreq bandwidth : ℚ) (lo hi : ℝ)
    (hsort : table.Pairwise (· < ·)) (hbw : 0 < bandwidth) (hlo : 0 < lo)
    (hbound : ∀ s ∈ chanSefds Tsys etaA dishRadius
        (paddedList table (bandLow obsFreq bandwidth) (bandUpp obsFreq bandwidth)),
        lo ≤ s ∧ s ≤ hi) :
    calculateDerivedSefd true Tsys etaA dishRadius table obsFreq bandwidth =
      Real.sqrt ((bandwidth : ℝ) /
        (((chanWidths (paddedList table (bandLow obsFreq bandwidth)
              (bandUpp obsFreq bandwidth))).zip
            (chanSefds Tsys etaA dishRadius (paddedList table
              (bandLow obsFreq bandwidth) (bandUpp obsFreq bandwidth)))).map
          fun p => (p.1 : ℝ) / p.2 ^ 2).sum) ∧
    lo ≤ calculateDerivedSefd true Tsys etaA dishRadius table obsFreq bandwidth ∧
    calculateDerivedSefd true Tsys etaA dishRadius table obsFreq bandwidth ≤ hi := by
  set low := bandLow obsFreq bandwidth with hlow_def
  set upp := bandUpp obsFreq bandwidth with hupp_def
  set padded := paddedList table low upp with hpadded_def
  set wl := chanWidths padded with hwl_def
  set sl := chanSefds Tsys etaA dishRadius padded with hsl_def
  set S := ((wl.zip sl).map fun p => (p.1 : ℝ) / p.2 ^ 2).sum with hS_def
  have heq : calculateDerivedSefd true Tsys etaA dishRadius table obsFreq bandwidth =
      Real.sqrt ((bandwidth : ℝ) / S) := by
    simp only [calculateDerivedSefd]
    rw [if_pos]
    constructor
    · trivial
    · rw [← hpadded_def, paddedList_length]
      omega
  rw [heq]
  refine ⟨rfl, ?_, ?_⟩
  all_goals {
    have hlu : low < upp := by
      rw [hlow_def, hupp_def, bandLow, bandUpp]
      linarith
    have hpw := paddedList_pairwise table low upp hsort hlu
    have hwidthpos : ∀ w ∈ wl, (0 : ℚ) < w := by
      intro w hw
      rw [hwl_def, chanWidths, List.mem_map] at hw
      obtain ⟨p, hpmem, hpw2⟩ := hw
      have := pairwise_consec padded hpw p hpmem
      rw [← hpw2]
      linarith
    have hzip_mem : ∀ p ∈ wl.zip sl, (0 : ℚ) < p.1 ∧ lo ≤ p.2 ∧ p.2 ≤ hi := by
      intro p hp
      have hm := List.of_mem_zip hp
      exact ⟨hwidthpos _ hm.1, hbound _ hm.2⟩
    have hlen : wl.length ≤ sl.length := by
      rw [hwl_def, hsl_def, chanWidths, chanSefds, chanMids]
      simp
    have hWsum : ((wl.zip sl).map fun p => ((p.1 : ℚ) : ℝ)).sum =
        ((bandwidth : ℚ) : ℝ) := by
      have hfst : (wl.zip sl).map Prod.fst = wl := List.map_fst_zip wl sl hlen
      have hstep : ((wl.zip sl).map fun p => ((p.1 : ℚ) : ℝ)) =
          (wl.map fun q : ℚ => (q : ℝ)) := by
        conv_rhs => rw [← hfst]
        rw [List.map_map]
        simp [Function.comp]
      rw [hstep, ← Rat.cast_list_sum, hwl_def, hpadded_def, hlow_def, hupp_def,
        chanWidths_paddedList_sum]
    have hsl_pos : 0 < sl.length := by
      rw [hsl_def, chanSefds, chanMids, hpadded_def, paddedList]
      simp [consecPairs, List.length_zip]
    obtain ⟨s0, hs0⟩ := List.exists_mem_of_length_pos hsl_pos
    have hs0b := hbound s0 hs0
    have hhi : 0 < hi := lt_of_lt_of_le hlo (le_trans hs0b.1 hs0b.2)
    obtain ⟨hS1, hS2⟩ := sum_div_sq_bounds (wl.zip sl) lo hi hlo hzip_mem
    rw [hWsum] at hS1 hS2
    rw [← hS_def] at hS1 hS2
    have hbwR : (0 : ℝ) < ((bandwidth : ℚ) : ℝ) := by exact_mod_cast hbw
    have hSpos : 0 < S := lt_of_lt_of_le (by positivity) hS1
    have h1 : ((bandwidth : ℚ) : ℝ) ≤ S * hi ^ 2 := by
      have hmul := mul_le_mul_of_nonneg_right hS1
        (le_of_lt (by positivity : (0 : ℝ) < hi ^ 2))
      rwa [div_mul_cancel₀ _ (ne_of_gt (by positivity : (0 : ℝ) < hi ^ 2))] at hmul
    have h2 : S * lo ^ 2 ≤ ((bandwidth : ℚ) : ℝ) := by
      have hmul := mul_le_mul_of_nonneg_right hS2
        (le_of_lt (by positivity : (0 : ℝ) < lo ^ 2))
      rwa [div_mul_cancel₀ _ (ne_of_gt (by positivity : (0 : ℝ) < lo ^ 2))] at hmul
    have hup : ((bandwidth : ℚ) : ℝ) / S ≤ hi ^ 2 := by
      rw [div_le_iff₀ hSpos]
      linarith [mul_comm S (hi ^ 2)]
    have hdown : lo ^ 2 ≤ ((bandwidth : ℚ) : ℝ) / S := by
      rw [le_div_iff₀ hSpos]
      linarith [mul_comm S (lo ^ 2)]
    first
      | (calc lo = Real.sqrt (lo ^ 2) := (Real.sqrt_sq hlo.le).symm
          _ ≤ Real.sqrt (((bandwidth : ℚ) : ℝ) / S) := Real.sqrt_le_sqrt hdown)
      | (calc Real.sqrt (((bandwidth : ℚ) : ℝ) / S)
            ≤ Real.sqrt (hi ^ 2) := Real.sqrt_le_sqrt hup
          _ = hi := Real.sqrt_sq hhi.le)
  }

/-- C8 witness: the two-channel instance over the grid [8] with
per-channel SEFD values 1 and 2; the combined SEFD lies in [1, 2]. -/
theorem claim_C8_witness :
    1 ≤ calculateDerivedSefd true Tsys7 1 1 [8] 10 8 ∧
    calculateDerivedSefd true Tsys7 1 1 [8] 10 8 ≤ 2 := by
  have hpadded : paddedList [8] (bandLow 10 8) (bandUpp 10 8) = [6, 8, 14] := by
    norm_num [paddedList, interiorPoints, bandLow, bandUpp, List.filter]
  have hsefds : chanSefds Tsys7 1 1 [6, 8, 14] = [1, 2] := by
    simp only [chanSefds, chanMids, consecPairs, List.tail_cons,
      List.zip_cons_cons, List.zip_nil_right, List.map_cons, List.map_nil]
    have hm1 : ((8 : ℚ) + 6) * 0.50 = 7 := by norm_num
    have hm2 : ((14 : ℚ) + 8) * 0.50 = 11 := by norm_num
    rw [hm1, hm2, sefdAt_Tsys7 7, sefdAt_Tsys7 11, if_pos (by norm_num),
      if_neg (by norm_num)]
  have hb : ∀ s ∈ chanSefds Tsys7 1 1
      (paddedList [8] (bandLow 10 8) (bandUpp 10 8)), (1 : ℝ) ≤ s ∧ s ≤ 2 := by
    rw [hpadded, hsefds]
    intro s hs
    simp only [List.mem_cons, List.not_mem_nil, or_false] at hs
    rcases hs with rfl | rfl <;> norm_num
  have h := claim_C8 Tsys7 1 1 [8] 10 8 1 2 (by simp) (by norm_num)
    (by norm_num) hb
  exact ⟨h.2.1, h.2.2⟩

/-- C1 witness: the amended behaviour at the concrete state stC with a
four second integration time, which passes the t_int range check. -/
theorem claim_C1_witness :
    ∃ v st2,
      calculate_sensitivity B0 stC (some ⟨4, .second⟩) true = .ok (v, st2, []) ∧
      v = tierFlux (rawSensitivity stC ⟨4, .second⟩) ∧
      v.toJy = stC.dp.sefd / (stC.dp.eta_s *
        Real.sqrt (stC.nPol * stC.bandwidth * (⟨4, .second⟩ : TimeQ).toSec)) ∧
      st2.config.inputs.user_input.t_int = ⟨4, .second⟩ ∧
      st2.sensitivityAttr = v ∧
      st2.config.inputs.user_input.sensitivity =
        stC.config.inputs.user_input.sensitivity :=
  claim_C1_amended B0 stC ⟨4, .second⟩
    (by constructor <;> norm_num [validTint, TimeQ.toSec, TimeUnit.secFactor, B0])

end AtlastSC
